import Mathlib

/-!
Verification development for the actual-sevdesk-bridge synchronization core.

This file gives a shallow embedding, in Lean, of the synchronization and
reconciliation engine of the repository:

* the SQLite mapping layer (`src/storage/database.py`),
* the voucher classifier (`src/voucher_validator.py`),
* the import/deduplication engine
  (`ActualBudgetClient.import_transactions` in `src/api/actual.py`),
* the voucher sync orchestrator (`src/sync/vouchers.py`), and
* the reconciliation pass (`src/sync/reconciliation.py`),

and proves (or refutes, by concrete computation) the stated properties of
these components.  Modelling conventions:

* Calendar dates are modelled as `Int` day numbers.  The source stores dates
  as `YYYYMMDD` integers and computes the ±3-day dedup window with calendar
  arithmetic before re-encoding; on day numbers this is the interval
  `[d - 3, d + 3]`.
* Money amounts are modelled as `Int` cent values.  The source converts a
  decimal gross amount to cents (`int(float(sumGross) * 100)`); the embedded
  vouchers carry the cent value directly.
* Timestamps (SevDesk `update` values) are ISO strings that the Python
  source compares lexicographically with `>`, which on their fixed format
  is chronological order; they are embedded as `Nat` values of an ordered
  timestamp domain.  A missing or empty (falsy) timestamp is `none`.
* SQLite tables are lists of rows; `INSERT OR REPLACE` on a primary key
  deletes any conflicting row and appends the new one; columns omitted from
  the insert take their declared defaults.
* Remote calls that the source may observe failing are embedded with
  `Except String` results; Python exception propagation is sequencing in
  that monad.
-/

namespace SevdeskBridge

/-! ## Data model -/

/-- A row of the ledger's `transactions` table (Actual Budget), with the
columns read or written by the import, update and delete paths of
`src/api/actual.py`.  `tombstone` is Actual's soft-delete flag;
`financial_id` is the imported (external) id column. -/
structure LTxn where
  id : String
  acct : String
  date : Int
  amount : Int
  category_id : Option String := none
  notes : String := ""
  cleared : Bool := false
  financial_id : Option String := none
  imported_description : Option String := none
  tombstone : Bool := false
  deriving Repr, DecidableEq

/-- An import candidate as built by the voucher sync
(`src/sync/vouchers.py`, lines 433–441): the dictionaries handed to
`import_transactions` always carry the keys `date`, `amount`,
`category_id`, `imported_id`, `imported_payee`, `notes` and `cleared`,
so those keys' presence checks in `import_transactions` all succeed. -/
structure ImportCand where
  date : Int
  amount : Int
  category_id : Option String := none
  imported_id : String := ""
  imported_payee : String := ""
  notes : String := ""
  cleared : Bool := false
  deriving Repr, DecidableEq

/-- A row of the `transaction_mappings` table
(`src/storage/database.py`, lines 50–60).  `sevdesk_id` is the primary
key; `ignored` has SQL default 0; when `ignored` is set the `actual_id`
column holds the human-readable ignore reason instead of a ledger
transaction id.  `sevdesk_amount` is kept in cents (see header). -/
structure MappingRow where
  sevdesk_id : String
  actual_id : String
  sevdesk_value_date : Option Int := none
  sevdesk_amount : Option Int := none
  sevdesk_update_timestamp : Option Nat := none
  ignored : Bool := false
  deriving Repr, DecidableEq

/-- A row of the `voucher_cache` table, restricted to the columns the sync
flow reads: `update_timestamp`, the validation state and the `edited`
flag (`edited` has SQL default 0, `is_valid` defaults to NULL). -/
structure CacheRow where
  id : String
  update_timestamp : Option Nat := none
  is_valid : Option Bool := none
  validation_reason : Option String := none
  edited : Bool := false
  deriving Repr, DecidableEq

/-- A row of the `failed_vouchers` table (validation failures). -/
structure FailedRow where
  voucher_id : String
  reason : String
  retry_count : Nat := 0
  deriving Repr, DecidableEq

/-- A row of the `sync_history` table.  `status` ranges over
`running`, `completed`, `failed` and `dry_run`. -/
structure SyncRunRow where
  runId : Nat
  sync_type : String
  status : String
  error_message : Option String := none
  deriving Repr, DecidableEq

/-- A voucher position (line item) with the fields the classifier reads:
only the accounting-type id matters for classification.  A `none`
accounting type models a position whose `accountingType` object or `id`
is missing. -/
structure VPosition where
  posId : String := ""
  accountingTypeId : Option String := none
  deriving Repr, DecidableEq

/-- A SevDesk voucher with the fields read by the sync flow.
`costCentre` is the cost-centre id (`none` when the voucher has no cost
centre object; the empty string models a falsy id).  `update` is the
source-side update timestamp, `sumGrossCents` the gross amount in cents
and `creditDebit` the `"C"`/`"D"` sign marker. -/
structure Voucher where
  vid : String
  voucherDate : Int
  sumGrossCents : Int
  creditDebit : String := "D"
  costCentre : Option String := none
  update : Option Nat := none
  voucherNumber : String := ""
  supplierName : String := ""
  deriving Repr, DecidableEq

/-- The result record produced by `VoucherValidator.validate_voucher`
(`src/voucher_validator.py`).  Only the fields the sync flow consumes are
kept. -/
structure ValidationResult where
  is_valid : Bool
  voucher_id : String
  reason : String := ""
  voucher_type : String := ""
  deriving Repr, DecidableEq

/-! ## Mapping-table operations (`src/storage/database.py`) -/

/-- Python truthiness of an optional timestamp: `None` and the empty
string are falsy and both embedded as `none`. -/
def truthyTs : Option Nat → Bool
  | none => false
  | some _ => true

/-- An `INSERT OR REPLACE` into a table keyed by `sevdesk_id`: SQLite deletes
any row with the same primary key, then inserts the new row. -/
def upsertMappingRow (table : List MappingRow) (r : MappingRow) : List MappingRow :=
  table.filter (fun x => x.sevdesk_id ≠ r.sevdesk_id) ++ [r]

/-- Embeds `Database.save_transaction_mapping` (database.py, lines 391–418):
`INSERT OR REPLACE` of the six named columns; the `ignored` column is not
named and therefore takes its SQL default 0. -/
def saveTransactionMapping (table : List MappingRow) (sevdesk_id actual_id : String)
    (value_date : Option Int) (amount : Option Int) (update_ts : Option Nat) :
    List MappingRow :=
  upsertMappingRow table
    { sevdesk_id := sevdesk_id, actual_id := actual_id,
      sevdesk_value_date := value_date, sevdesk_amount := amount,
      sevdesk_update_timestamp := update_ts, ignored := false }

/-- Embeds `Database.get_transaction_mapping` (database.py, lines 420–434). -/
def getTransactionMapping (table : List MappingRow) (sevdesk_id : String) :
    Option MappingRow :=
  table.find? (fun r => r.sevdesk_id = sevdesk_id)

/-- Embeds `Database.delete_transaction_mapping` (database.py, lines 461–480). -/
def deleteTransactionMapping (table : List MappingRow) (sevdesk_id : String) :
    List MappingRow :=
  table.filter (fun r => r.sevdesk_id ≠ sevdesk_id)

/-- Embeds `Database.mark_voucher_ignored` (database.py, lines 482–508):
`INSERT OR REPLACE` that stores the ignore reason in the `actual_id`
column and sets `ignored = 1`; the value-date, amount and timestamp
columns are not named and become NULL. -/
def markVoucherIgnored (table : List MappingRow) (sevdesk_id reason : String) :
    List MappingRow :=
  upsertMappingRow table
    { sevdesk_id := sevdesk_id, actual_id := reason, ignored := true }

/-- Embeds `Database.is_voucher_ignored` (database.py, lines 510–523). -/
def isVoucherIgnored (table : List MappingRow) (sevdesk_id : String) : Bool :=
  table.any (fun r => r.sevdesk_id = sevdesk_id && r.ignored)

/-- One Cache-Store operation on the `transaction_mappings` table, as
named by the spec's invariant: save a mapping, mark a voucher ignored, or
delete a mapping. -/
inductive MapOp where
  | save (sevdesk_id actual_id : String) (value_date : Option Int)
      (amount : Option Int) (update_ts : Option Nat)
  | ignore (sevdesk_id reason : String)
  | del (sevdesk_id : String)
  deriving Repr, DecidableEq

/-- Interpretation of one `MapOp` on the table. -/
def applyMapOp (table : List MappingRow) : MapOp → List MappingRow
  | .save sid aid vd amt ts => saveTransactionMapping table sid aid vd amt ts
  | .ignore sid reason => markVoucherIgnored table sid reason
  | .del sid => deleteTransactionMapping table sid

/-- A sequence of Cache-Store operations applied to the table in order. -/
def applyMapOps (ops : List MapOp) (table : List MappingRow) : List MappingRow :=
  ops.foldl applyMapOp table

/-! ## Classifier (`src/voucher_validator.py`) -/

/-- Default transfer ("Geldtransit") accounting-type ids
(`VoucherValidator.__init__`). -/
def geldtransitTypeIds : List String := ["40", "81"]

/-- Default "no cost center required" accounting-type ids
("Durchlaufende Posten", `VoucherValidator.__init__`). -/
def noCostCenterTypeIds : List String := ["39"]

/-- Python truthiness of `voucher.get('costCentre')` followed by
`cost_centre.get('id')`: the voucher has a cost centre iff the cost-centre
object exists and its id is truthy. -/
def hasCostCentre (v : Voucher) : Bool :=
  match v.costCentre with
  | none => false
  | some c => c ≠ ""

/-- Whether some position's accounting-type id lies in the given set
(`pos.get('accountingType', {}).get('id') in ids`; a missing id is never
a member). -/
def anyTypeIn (ps : List VPosition) (ids : List String) : Bool :=
  ps.any (fun p =>
    match p.accountingTypeId with
    | some t => ids.contains t
    | none => false)

/-- Embeds `VoucherValidator._validate_geldtransit` (voucher_validator.py,
lines 106–155). -/
def validateGeldtransit (v : Voucher) (ps : List VPosition) : ValidationResult :=
  if hasCostCentre v then
    { is_valid := false, voucher_id := v.vid, voucher_type := "geldtransit",
      reason := "Geldtransit voucher has cost center (should be None)" }
  else if ps.length = 0 || ps.length > 2 then
    { is_valid := false, voucher_id := v.vid, voucher_type := "geldtransit",
      reason := "Geldtransit has unexpected position count (expected 1 or 2)" }
  else
    { is_valid := true, voucher_id := v.vid, voucher_type := "geldtransit" }

/-- Embeds `VoucherValidator._validate_regular_voucher` (voucher_validator.py,
lines 157–206): a regular voucher must carry a cost centre that is mapped
to an Actual Budget category. -/
def validateRegularVoucher (categoryMappings : List (String × String))
    (v : Voucher) (_ps : List VPosition) : ValidationResult :=
  if ¬ hasCostCentre v then
    { is_valid := false, voucher_id := v.vid, voucher_type := "regular",
      reason := "Regular voucher missing cost center" }
  else
    match v.costCentre with
    | none =>
        { is_valid := false, voucher_id := v.vid, voucher_type := "regular",
          reason := "Regular voucher missing cost center" }
    | some cc =>
        match categoryMappings.lookup cc with
        | none =>
            { is_valid := false, voucher_id := v.vid, voucher_type := "regular",
              reason := "Cost center not mapped to Actual Budget category" }
        | some _ =>
            { is_valid := true, voucher_id := v.vid, voucher_type := "regular" }

/-- Embeds `VoucherValidator.validate_voucher` (voucher_validator.py,
lines 45–104): no positions → invalid; any transfer-type position →
Geldtransit rules; else any no-cost-center-type position → valid
automatically; else regular rules. -/
def validateVoucher (categoryMappings : List (String × String))
    (v : Voucher) (ps : List VPosition) : ValidationResult :=
  if ps.isEmpty then
    { is_valid := false, voucher_id := v.vid,
      reason := "No voucher positions found" }
  else if anyTypeIn ps geldtransitTypeIds then
    validateGeldtransit v ps
  else if anyTypeIn ps noCostCenterTypeIds then
    { is_valid := true, voucher_id := v.vid,
      voucher_type := "no_cost_center_required" }
  else
    validateRegularVoucher categoryMappings v ps

/-! ## Import/dedup engine (`ActualBudgetClient.import_transactions`,
`src/api/actual.py`, lines 759–947) -/

/-- The running state of one `import_transactions` call: the ledger (the
SQLAlchemy session flushes pending inserts before each query, so
transactions created earlier in the batch are visible to later
candidates), the mutable `existing_imported_ids` set, a fresh-id counter
standing in for `uuid4`, and the three outcome lists. -/
structure ImportState where
  ledger : List LTxn
  existingIds : List String
  nextId : Nat
  added : List String
  updated : List String
  skipped : List String
  deriving Repr, DecidableEq

/-- The similar-transaction query of `import_transactions`
(actual.py, lines 837–845): same account, identical amount, date within
the ±3-day window, not tombstoned.  Despite the source comment "similar
transaction without imported_id", the query does not restrict
`financial_id`. -/
def similarMatch (acct : String) (c : ImportCand) (t : LTxn) : Bool :=
  t.acct = acct && t.amount = c.amount &&
    c.date - 3 ≤ t.date && t.date ≤ c.date + 3 && !t.tombstone

/-- The initial `existing_imported_ids` set (actual.py, lines 804–817):
the non-falsy `financial_id` values, among the batch's imported ids, of
the account's non-deleted transactions. -/
def initialExistingIds (acct : String) (batch : List ImportCand) (ledger : List LTxn) :
    List String :=
  ledger.filterMap (fun t =>
    if t.acct = acct && !t.tombstone then
      match t.financial_id with
      | some f => if f ≠ "" && (batch.map (fun c => c.imported_id)).contains f
                  then some f else none
      | none => none
    else none)

/-- Fresh transaction id for the `n`-th created transaction (stands in
for `uuid4`). -/
def newTxnId (n : Nat) : String := "txn-" ++ toString n

/-- The updates applied to an existing similar transaction
(actual.py, lines 849–875): attach the imported id (when truthy), record
the imported payee (when truthy), and overwrite notes, cleared flag and
category (those keys are always present on sync-built candidates). -/
def applyCandUpdate (c : ImportCand) (t : LTxn) : LTxn :=
  { t with
    financial_id := if c.imported_id ≠ "" then some c.imported_id else t.financial_id
    imported_description :=
      if c.imported_payee ≠ "" then some c.imported_payee else t.imported_description
    notes := c.notes
    cleared := c.cleared
    category_id := c.category_id }

/-- The transaction record created for a candidate with no duplicate and
no similar match (actual.py, lines 879–915). -/
def mkNewTxn (acct : String) (c : ImportCand) (n : Nat) : LTxn :=
  { id := newTxnId n, acct := acct, date := c.date, amount := c.amount,
    category_id := c.category_id, notes := c.notes, cleared := c.cleared,
    financial_id := some c.imported_id,
    imported_description := if c.imported_payee ≠ "" then some c.imported_payee else none,
    tombstone := false }

/-- Whether the candidate is skipped as a duplicate
(`if imported_id and imported_id in existing_imported_ids`). -/
def skipCond (st : ImportState) (c : ImportCand) : Bool :=
  c.imported_id ≠ "" && st.existingIds.contains c.imported_id

/-- One iteration of the per-candidate loop of `import_transactions`
(actual.py, lines 820–915): skip on duplicate imported id; else update
the first similar transaction; else create a new transaction. -/
def importStep (acct : String) (st : ImportState) (c : ImportCand) : ImportState :=
  if skipCond st c then
    { st with skipped := st.skipped ++ [c.imported_id] }
  else
    match st.ledger.filter (similarMatch acct c) with
    | t :: _ =>
        { st with
          ledger := st.ledger.map (fun u => if u.id = t.id then applyCandUpdate c u else u)
          updated := st.updated ++ [t.id]
          existingIds :=
            if c.imported_id ≠ "" then st.existingIds ++ [c.imported_id]
            else st.existingIds }
    | [] =>
        { st with
          ledger := st.ledger ++ [mkNewTxn acct c st.nextId]
          nextId := st.nextId + 1
          added := st.added ++ [newTxnId st.nextId]
          existingIds :=
            if c.imported_id ≠ "" then st.existingIds ++ [c.imported_id]
            else st.existingIds }

/-- Runs `import_transactions` over a whole batch: initialise the duplicate
set from the ledger, then fold the per-candidate loop. -/
def importTransactionsRun (acct : String) (batch : List ImportCand)
    (ledger : List LTxn) (nextId : Nat) : ImportState :=
  batch.foldl (importStep acct)
    { ledger := ledger, existingIds := initialExistingIds acct batch ledger,
      nextId := nextId, added := [], updated := [], skipped := [] }

/-- Embeds `ActualBudgetClient.delete_transaction` (actual.py, lines 565–593):
returns `false` when no live transaction has the id, else sets the
tombstone flag and returns `true`. -/
def deleteTransaction (ledger : List LTxn) (tid : String) : Bool × List LTxn :=
  if ledger.any (fun t => t.id = tid && !t.tombstone) then
    (true, ledger.map (fun t => if t.id = tid then { t with tombstone := true } else t))
  else
    (false, ledger)

/-! ### Fallible per-candidate processing

The body of the per-candidate loop of `import_transactions` contains no
`try`/`except`: a Python exception raised while creating or updating one
candidate propagates out of the whole call.  `importRunTrace` runs the
loop against an oracle `failsOn` marking the candidates whose
create/update step raises, and returns the state reached, the list of
candidates actually attempted (side effects before the raise persist),
and the propagated error if any. -/
def importRunTrace (acct : String) (failsOn : ImportCand → Bool) :
    List ImportCand → ImportState → ImportState × List ImportCand × Option String
  | [], st => (st, [], none)
  | c :: cs, st =>
      if skipCond st c then
        let next := importRunTrace acct failsOn cs (importStep acct st c)
        (next.1, c :: next.2.1, next.2.2)
      else if failsOn c then
        (st, [c], some ("import failed for " ++ c.imported_id))
      else
        let next := importRunTrace acct failsOn cs (importStep acct st c)
        (next.1, c :: next.2.1, next.2.2)

/-! ## Voucher cache operations (`src/storage/database.py`) -/

/-- Embeds `Database.get_max_update_timestamp` (database.py, lines 990–999):
SQL `MAX(update_timestamp)` ignores NULLs and returns NULL on an empty
set; string maximum is lexicographic. -/
def getMaxUpdateTimestamp (cache : List CacheRow) : Option Nat :=
  (cache.filterMap (fun r => r.update_timestamp)).foldl
    (fun acc s =>
      match acc with
      | none => some s
      | some a => some (max a s))
    none

/-- Embeds `Database.get_invalid_voucher_ids` (database.py, lines 1072–1081):
`SELECT id FROM voucher_cache WHERE is_valid = 0`. -/
def getInvalidVoucherIds (cache : List CacheRow) : List String :=
  cache.filterMap (fun r => if r.is_valid = some false then some r.id else none)

/-- Embeds `Database.get_edited_voucher_ids` (database.py, lines 1027–1036):
`SELECT id FROM voucher_cache WHERE edited = 1`. -/
def getEditedVoucherIds (cache : List CacheRow) : List String :=
  cache.filterMap (fun r => if r.edited then some r.id else none)

/-- Embeds `Database.mark_vouchers_as_edited` (database.py, lines 1012–1025). -/
def markVouchersAsEdited (cache : List CacheRow) (ids : List String) : List CacheRow :=
  cache.map (fun r => if ids.contains r.id then { r with edited := true } else r)

/-- Embeds `Database.save_vouchers_to_cache_batch` (database.py, lines 849–885):
`INSERT OR REPLACE` keyed by `id`; the `edited`, `is_valid` and
`validation_reason` columns are not named in the insert and are reset to
their SQL defaults (0, NULL, NULL). -/
def saveVouchersToCacheBatch (cache : List CacheRow) (vs : List Voucher) : List CacheRow :=
  vs.foldl
    (fun acc v =>
      acc.filter (fun r => r.id ≠ v.vid) ++
        [{ id := v.vid, update_timestamp := v.update }])
    cache

/-- Embeds `Database.mark_voucher_validation` (database.py, lines 1056–1070):
`UPDATE` of the validation columns of the existing cache row (no insert
when the row is missing). -/
def markVoucherValidationCache (cache : List CacheRow) (vid : String)
    (valid : Bool) (reason : Option String) : List CacheRow :=
  cache.map (fun r =>
    if r.id = vid then { r with is_valid := some valid, validation_reason := reason }
    else r)

/-- Embeds `Database.save_failed_voucher` (database.py, lines 527–563): update
the reason and bump the retry counter when the row exists, else insert
with retry count 0. -/
def saveFailedVoucher (failed : List FailedRow) (vid reason : String) : List FailedRow :=
  if failed.any (fun f => f.voucher_id = vid) then
    failed.map (fun f =>
      if f.voucher_id = vid then
        { f with reason := reason, retry_count := f.retry_count + 1 }
      else f)
  else
    failed ++ [{ voucher_id := vid, reason := reason, retry_count := 0 }]

/-! ## Delta planner (`sync_vouchers`, `src/sync/vouchers.py`, lines 48–100) -/

/-- The incremental selection of vouchers to process: the fetched booked
vouchers whose `update` timestamp exceeds the cache's maximum update
timestamp (when that maximum is truthy), together with the re-fetched
previously-invalid vouchers (`get_voucher` per id; a failed or empty
fetch is skipped).  The `edited` flag of the cache is not consulted. -/
def incrementalSelection (cache : List CacheRow) (fetched : List Voucher)
    (getVoucher : String → Option Voucher) : List Voucher :=
  let maxTs := getMaxUpdateTimestamp cache
  let updatedVouchers :=
    match maxTs with
    | some ts => fetched.filter (fun v => ts < v.update.getD 0)
    | none => fetched
  let invalidVouchers := (getInvalidVoucherIds cache).filterMap getVoucher
  updatedVouchers ++ invalidVouchers

/-! ## Sync orchestrator (`sync_vouchers`, `src/sync/vouchers.py`) -/

/-- The persistent database state touched by the voucher sync: the
mapping table, voucher cache, failed-voucher table and run history.
(The position cache is written by the sync but never read back in this
flow, so it is not tracked.) -/
structure SyncDb where
  mappings : List MappingRow
  cache : List CacheRow
  failed : List FailedRow
  history : List SyncRunRow
  deriving Repr, DecidableEq

/-- Embeds `Database.start_sync` (database.py, lines 725–739): insert a
`running` row and return its id (AUTOINCREMENT modelled by the current
history length). -/
def startSync (db : SyncDb) (ty : String) : SyncDb × Nat :=
  let runId := db.history.length
  ({ db with history := db.history ++ [{ runId := runId, sync_type := ty, status := "running" }] },
   runId)

/-- Embeds `Database.complete_sync` (database.py, lines 741–774): update the
status and error message of the run row. -/
def completeSync (db : SyncDb) (runId : Nat) (status : String)
    (err : Option String) : SyncDb :=
  { db with
    history := db.history.map (fun r =>
      if r.runId = runId then { r with status := status, error_message := err } else r) }

/-- The combined world the sync acts on: the local database, the ledger,
and a fresh-id counter for created transactions. -/
structure WorldState where
  db : SyncDb
  ledger : List LTxn
  nextId : Nat
  deriving Repr, DecidableEq

/-- A voucher routed to creation (`valid_vouchers` in vouchers.py). -/
structure ValidEntry where
  v : Voucher
  ps : List VPosition
  res : ValidationResult
  deriving Repr, DecidableEq

/-- A voucher routed to update (`modified_vouchers` in vouchers.py). -/
structure ModifiedEntry where
  v : Voucher
  ps : List VPosition
  res : ValidationResult
  mapping : MappingRow
  deriving Repr, DecidableEq

/-- Accumulator of the per-voucher validation loop
(vouchers.py, lines 153–282). -/
structure ClassAcc where
  db : SyncDb
  valid : List ValidEntry
  modified : List ModifiedEntry
  alreadySynced : Nat
  ignoredCount : Nat
  deriving Repr, DecidableEq

/-- The sync pipeline's pre-check for "Durchlaufende Posten"
(vouchers.py, lines 207–213): a voucher with a type-39 position and no
cost centre is rejected before the validator runs. -/
def precheck39Fails (v : Voucher) (ps : List VPosition) : Bool :=
  anyTypeIn ps noCostCenterTypeIds && !hasCostCentre v

/-- The classification part shared by the no-mapping case and the
modified case of the loop body (vouchers.py, lines 186–281): the
Geldtransit ignore check, the type-39 cost-centre pre-check, then the
validator, with the corresponding database writes. -/
def classifyBody (catMaps : List (String × String))
    (posBy : List (String × List VPosition)) (dryRun : Bool)
    (acc : ClassAcc) (v : Voucher) (existing : Option MappingRow) : ClassAcc :=
  let key := "voucher_" ++ v.vid
  let ps := (posBy.lookup v.vid).getD []
  if ps.isEmpty then
    -- no positions: falls through to the validator, which rejects it
    let res := validateVoucher catMaps v ps
    let db1 := if dryRun then acc.db else
      { acc.db with cache := markVoucherValidationCache acc.db.cache v.vid res.is_valid (some res.reason) }
    let db2 := if dryRun then db1 else
      { db1 with failed := saveFailedVoucher db1.failed v.vid res.reason }
    { acc with db := db2 }
  else if anyTypeIn ps geldtransitTypeIds then
    let db1 :=
      if !isVoucherIgnored acc.db.mappings key && !dryRun then
        { acc.db with mappings := markVoucherIgnored acc.db.mappings key "Geldtransit" }
      else acc.db
    { acc with db := db1, ignoredCount := acc.ignoredCount + 1 }
  else if precheck39Fails v ps then
    let reason := "Durchlaufende Posten requires a cost centre"
    let db1 := if dryRun then acc.db else
      { acc.db with
        cache := markVoucherValidationCache acc.db.cache v.vid false (some reason)
        failed := saveFailedVoucher acc.db.failed v.vid reason }
    { acc with db := db1 }
  else
    let res := validateVoucher catMaps v ps
    let db1 := if dryRun then acc.db else
      { acc.db with
        cache := markVoucherValidationCache acc.db.cache v.vid res.is_valid
          (if res.is_valid then none else some res.reason) }
    if res.is_valid then
      match existing with
      | some m =>
          { acc with
            db := db1
            modified := acc.modified ++ [{ v := v, ps := ps, res := res, mapping := m }] }
      | none =>
          { acc with
            db := db1
            valid := acc.valid ++ [{ v := v, ps := ps, res := res }] }
    else
      let db2 := if dryRun then db1 else
        { db1 with failed := saveFailedVoucher db1.failed v.vid res.reason }
      { acc with db := db2 }

/-- One iteration of the per-voucher loop (vouchers.py, lines 161–282):
a voucher with an existing mapping whose stored update timestamp is not
exceeded by the current one is skipped; otherwise it is classified. -/
def classifyStep (catMaps : List (String × String))
    (posBy : List (String × List VPosition)) (dryRun : Bool)
    (acc : ClassAcc) (v : Voucher) : ClassAcc :=
  let key := "voucher_" ++ v.vid
  match getTransactionMapping acc.db.mappings key with
  | some m =>
      if truthyTs v.update && truthyTs m.sevdesk_update_timestamp &&
          decide (m.sevdesk_update_timestamp.getD 0 < v.update.getD 0) then
        classifyBody catMaps posBy dryRun acc v (some m)
      else
        { acc with alreadySynced := acc.alreadySynced + 1 }
  | none => classifyBody catMaps posBy dryRun acc v none

/-- The signed cent amount of a voucher (vouchers.py, lines 404–408):
credit vouchers are negated. -/
def amountCents (v : Voucher) : Int :=
  if v.creditDebit = "C" then -v.sumGrossCents else v.sumGrossCents

/-- The category id attached to a candidate (vouchers.py, lines 411–413):
the cost-centre id looked up in the category mapping when truthy. -/
def candCategoryId (catMaps : List (String × String)) (v : Voucher) : Option String :=
  match v.costCentre with
  | some c => if c ≠ "" then catMaps.lookup c else none
  | none => none

/-- The deterministic external id of a voucher (vouchers.py, line 416). -/
def importedIdOf (v : Voucher) : String := "sevdesk_voucher_" ++ v.vid

/-- The import candidate built for a newly valid voucher
(vouchers.py, lines 397–441).  (The source interpolates a stale
`voucher_number` loop variable into the notes; the notes content is
immaterial to every property below, so the voucher's own id is used.) -/
def mkCandidate (catMaps : List (String × String)) (v : Voucher) : ImportCand :=
  { date := v.voucherDate
    amount := amountCents v
    category_id := candCategoryId catMaps v
    imported_id := importedIdOf v
    imported_payee :=
      if v.supplierName ≠ "" then v.supplierName ++ " [#" ++ v.vid ++ "]"
      else "Voucher #" ++ v.vid
    notes := "ID: " ++ v.vid
    cleared := false }

/-- The mapping-persistence loop after the import
(vouchers.py, lines 457–473): for every added or updated transaction id,
look the transaction up, and when its `financial_id` is truthy and known
to the batch, upsert the mapping for the corresponding voucher. -/
def saveMappingsForImport (mappings : List MappingRow)
    (lookupV : List (String × Voucher)) (res : ImportState) : List MappingRow :=
  (res.added ++ res.updated).foldl
    (fun acc tid =>
      match res.ledger.find? (fun t => t.id = tid) with
      | none => acc
      | some t =>
          match t.financial_id with
          | some f =>
              if f ≠ "" then
                match lookupV.lookup f with
                | some v =>
                    saveTransactionMapping acc ("voucher_" ++ v.vid) tid
                      (some v.voucherDate) (some v.sumGrossCents) v.update
                | none => acc
              else acc
          | none => acc)
    mappings

/-- The batch update applied to modified vouchers
(vouchers.py, lines 505–510 and `update_transactions_batch` in
actual.py): overwrite date, amount and category of the mapped ledger
transaction. -/
def applyModifiedUpdates (catMaps : List (String × String))
    (ledger : List LTxn) (entries : List ModifiedEntry) : List LTxn :=
  entries.foldl
    (fun acc e =>
      acc.map (fun t =>
        if t.id = e.mapping.actual_id then
          { t with date := e.v.voucherDate, amount := amountCents e.v,
                   category_id := candCategoryId catMaps e.v }
        else t))
    ledger

/-- The mapping upserts after the modified-voucher batch update
(vouchers.py, lines 526–533). -/
def saveMappingsForModified (mappings : List MappingRow)
    (entries : List ModifiedEntry) : List MappingRow :=
  entries.foldl
    (fun acc e =>
      saveTransactionMapping acc ("voucher_" ++ e.v.vid) e.mapping.actual_id
        (some e.v.voucherDate) (some e.v.sumGrossCents) e.v.update)
    mappings

/-- Embeds `sync_vouchers` (src/sync/vouchers.py) end to end.

Inputs: `listVouchers` is the result of the whole-phase
`sevdesk.get_vouchers(status=1000)` listing; `getVoucher` the per-id
fetch used for previously invalid vouchers; `fetchPositions` the
whole-phase batched position fetch.  A `.error` of a whole-phase
operation models the corresponding Python exception: the function
returns with that error and the database keeps exactly the writes made
before the raise — in particular `sync_vouchers` contains no
`try`/`except` that would close the `SyncRun` row on such an error.

Returns the resulting world and the propagated error, if any. -/
def syncVouchersModel (acct : String) (catMaps : List (String × String))
    (listVouchers : Except String (List Voucher))
    (getVoucher : String → Option Voucher)
    (fetchPositions : Except String (List (String × List VPosition)))
    (fullSync dryRun : Bool) (w : WorldState) : WorldState × Option String :=
  match listVouchers with
  | .error e => (w, some e)
  | .ok source =>
    let hasCache := w.db.cache.length > 0
    let vouchers :=
      if hasCache && !fullSync then incrementalSelection w.db.cache source getVoucher
      else source
    if vouchers.isEmpty then (w, none)
    else
      let (db1, runId) := startSync w.db "vouchers"
      let db2 := { db1 with cache := saveVouchersToCacheBatch db1.cache vouchers }
      match fetchPositions with
      | .error e => ({ w with db := db2 }, some e)
      | .ok posBy =>
        let acc0 : ClassAcc :=
          { db := db2, valid := [], modified := [], alreadySynced := 0, ignoredCount := 0 }
        let acc := vouchers.foldl (fun a v => classifyStep catMaps posBy dryRun a v) acc0
        if dryRun then
          ({ w with db := completeSync acc.db runId "dry_run" none }, none)
        else if acc.valid.isEmpty && acc.modified.isEmpty then
          -- the source returns here without calling complete_sync
          ({ w with db := acc.db }, none)
        else
          let candidates := acc.valid.map (fun e => mkCandidate catMaps e.v)
          let lookupV := acc.valid.map (fun e => (importedIdOf e.v, e.v))
          let res := importTransactionsRun acct candidates w.ledger w.nextId
          let maps1 := saveMappingsForImport acc.db.mappings lookupV res
          let ledger1 := applyModifiedUpdates catMaps res.ledger acc.modified
          let maps2 := saveMappingsForModified maps1 acc.modified
          let dbEnd := completeSync { acc.db with mappings := maps2 } runId "completed" none
          ({ db := dbEnd, ledger := ledger1, nextId := res.nextId }, none)

/-! ## Reconciler (`reconcile_transactions`, `src/sync/reconciliation.py`) -/

/-- Removal of every occurrence of a pattern from a character list
(the behaviour of Python's `str.replace(pat, '')`), with an explicit
fuel argument so the recursion is structural; each step consumes at
least one character, so fuel equal to the list length is enough. -/
def removeSubstrFuel (pat : List Char) : Nat → List Char → List Char
  | 0, l => l
  | _ + 1, [] => []
  | fuel + 1, c :: cs =>
      if pat ≠ [] && (c :: cs).take pat.length = pat then
        removeSubstrFuel pat fuel (cs.drop (pat.length - 1))
      else
        c :: removeSubstrFuel pat fuel cs

/-- The voucher id recovered from a mapping key
(`sevdesk_id.replace('voucher_', '')`). -/
def stripVoucherKey (s : String) : String :=
  String.mk (removeSubstrFuel "voucher_".data s.data.length s.data)

/-- Bucket test "unbooked": the source voucher exists but its status is
no longer `1000` (reconciliation.py, lines 75–79). -/
def unbookedPred (getStatus : String → Option String) (m : MappingRow) : Bool :=
  match getStatus (stripVoucherKey m.sevdesk_id) with
  | some st => st ≠ "1000"
  | none => false

/-- Bucket test "not found": the source voucher no longer exists
(reconciliation.py, lines 70–73). -/
def notFoundPred (getStatus : String → Option String) (m : MappingRow) : Bool :=
  (getStatus (stripVoucherKey m.sevdesk_id)).isNone

/-- Whether a mapping lands in one of the two removal buckets: its
source document is gone (`not found`) or no longer has status 1000
(`unbooked`).  `getStatus` is the per-document SevDesk status query. -/
def removalCond (getStatus : String → Option String) (m : MappingRow) : Bool :=
  match getStatus (stripVoucherKey m.sevdesk_id) with
  | none => true
  | some st => st ≠ "1000"

/-- The result of one reconciliation pass: the surviving mapping table,
the ledger, the voucher ids queried against the source system, and the
count of ledger transactions actually deleted. -/
structure ReconcileResult where
  mappings : List MappingRow
  ledger : List LTxn
  queried : List String
  deletedCount : Nat
  deriving Repr, DecidableEq

/-- The removal applied to one bucketed mapping
(reconciliation.py, lines 125–136): delete the ledger transaction — a
`False` return of `delete_transaction` ("already gone") is not counted
but is not an error — then delete the mapping row.  The state is
(mapping table, ledger, deleted count). -/
def reconcileRemoveStep (s : List MappingRow × List LTxn × Nat) (m : MappingRow) :
    List MappingRow × List LTxn × Nat :=
  let del := deleteTransaction s.2.1 m.actual_id
  (deleteTransactionMapping s.1 m.sevdesk_id, del.2, s.2.2 + (if del.1 then 1 else 0))

/-- Embeds `reconcile_transactions` (reconciliation.py, lines 12–148): query the
current source status of every mapping row (`get_all_transaction_mappings`
returns all rows, with no filter on `ignored`), bucket the missing and
unbooked ones, and — outside dry-run — delete the ledger transaction
(tolerating "already gone" as a non-error) and the mapping row of every
bucketed entry. -/
def reconcileTransactions (getStatus : String → Option String)
    (mappings : List MappingRow) (ledger : List LTxn) (dryRun : Bool) :
    ReconcileResult :=
  let queried := mappings.map (fun m => stripVoucherKey m.sevdesk_id)
  let unbooked := mappings.filter (unbookedPred getStatus)
  let notFound := mappings.filter (notFoundPred getStatus)
  let toRemove := unbooked ++ notFound
  if dryRun then
    { mappings := mappings, ledger := ledger, queried := queried, deletedCount := 0 }
  else
    let final := toRemove.foldl reconcileRemoveStep (mappings, ledger, 0)
    { mappings := final.1, ledger := final.2.1, queried := queried,
      deletedCount := final.2.2 }

/-! ## Concrete scenarios

Named inputs used by the counterexample and witness theorems below. -/

/-- Scenario voucher `A`: a regular booked voucher over 5.00 on day 10
with a mapped cost centre. -/
def voucherA : Voucher :=
  { vid := "A", voucherDate := 10, sumGrossCents := 500, creditDebit := "D",
    costCentre := some "cc1", update := some 1, supplierName := "S" }

/-- Scenario voucher `B`: same amount as `A`, dated one day later. -/
def voucherB : Voucher :=
  { vid := "B", voucherDate := 11, sumGrossCents := 500, creditDebit := "D",
    costCentre := some "cc1", update := some 1, supplierName := "S" }

/-- Positions of the scenario vouchers: one ordinary (type 26) line item
each. -/
def positionsAB : List (String × List VPosition) :=
  [("A", [{ posId := "pA", accountingTypeId := some "26" }]),
   ("B", [{ posId := "pB", accountingTypeId := some "26" }])]

/-- A manually entered ledger transaction over the same amount and date
as voucher `A`, carrying no external id. -/
def manualTxn : LTxn := { id := "M", acct := "acct", date := 10, amount := 500 }

/-- Initial world for the idempotence scenario: empty local database,
ledger containing only the manual transaction. -/
def idemWorld0 : WorldState :=
  { db := { mappings := [], cache := [], failed := [], history := [] },
    ledger := [manualTxn], nextId := 0 }

/-- One execution of the full voucher sync on the unchanged source
`[voucherA, voucherB]` (full sync, not dry-run, no failures). -/
def idemRun (w : WorldState) : WorldState × Option String :=
  syncVouchersModel "acct" [("cc1", "cat1")] (.ok [voucherA, voucherB]) (fun _ => none)
    (.ok positionsAB) true false w

/-- World after the first full sync of the idempotence scenario. -/
def idemWorld1 : WorldState := (idemRun idemWorld0).1

/-- World after the second, source-identical full sync. -/
def idemWorld2 : WorldState := (idemRun idemWorld1).1

/-- The voucher-sync run of scenario C9: the whole-phase position fetch
raises after the `SyncRun` row has been inserted. -/
def failedPhaseRun : WorldState × Option String :=
  syncVouchersModel "acct" [("cc1", "cat1")] (.ok [voucherA]) (fun _ => none)
    (.error "boom") true false idemWorld0

/-- A pass-through voucher (type-39 line item) that carries a cost
centre which no category mapping knows. -/
def voucherD39 : Voucher :=
  { vid := "D", voucherDate := 5, sumGrossCents := 100, costCentre := some "cc9" }

/-- The single type-39 position of `voucherD39`. -/
def positionsD39 : List VPosition := [{ posId := "p", accountingTypeId := some "39" }]

/-- A cache holding one valid voucher row that has been marked edited
(dirty) while its update timestamp is unchanged. -/
def editedCache : List CacheRow :=
  [{ id := "E", update_timestamp := some 5, is_valid := some true, edited := true }]

/-- The source-side view of the edited cached voucher: same id, same
(unchanged) update timestamp. -/
def voucherE : Voucher := { vid := "E", voucherDate := 1, sumGrossCents := 100, update := some 5 }

/-- A mapping row marked ignored (its `actual_id` column holds the
ignore reason, as written by `mark_voucher_ignored`). -/
def ignoredMapping : MappingRow :=
  { sevdesk_id := "voucher_9", actual_id := "Geldtransit", ignored := true }

/-- First candidate of the failing-import scenario. -/
def candFail : ImportCand := { date := 0, amount := 5, imported_id := "i1" }

/-- Second candidate of the failing-import scenario. -/
def candAfter : ImportCand := { date := 50, amount := 7, imported_id := "i2" }

/-- The empty import state over an empty ledger. -/
def emptyImportState : ImportState :=
  { ledger := [], existingIds := [], nextId := 0, added := [], updated := [], skipped := [] }

/-- A mapping row whose source voucher will report "not found" in the
reconciliation witness scenario. -/
def staleMapping : MappingRow := { sevdesk_id := "voucher_7", actual_id := "T7" }

/-- The live ledger transaction referenced by `staleMapping`. -/
def staleTxn : LTxn := { id := "T7", acct := "acct", date := 3, amount := 42 }

/-- Forgetting the `edited` flag of a cache row (used to state that the
incremental selection does not depend on it). -/
def clearEditedFlag (r : CacheRow) : CacheRow := { r with edited := false }

/-- The cache `editedCache` with the dirty flag cleared. -/
def clearedCache : List CacheRow :=
  [{ id := "E", update_timestamp := some 5, is_valid := some true, edited := false }]

/-- An import state whose duplicate set already contains `"i1"`. -/
def skipState : ImportState :=
  { ledger := [], existingIds := ["i1"], nextId := 0,
    added := [], updated := [], skipped := [] }

/-! # Theorems -/

/-- C1: the full voucher sync is *not* idempotent — evaluating the code
at the failing input.  With a manually entered ledger transaction of the
same amount within 3 days of two vouchers `A` and `B`, the first full
sync lets both candidates fuzzy-match the manual transaction (the
similar-transaction query does not exclude transactions that already
carry an external id), so `B` overwrites `A`'s external id and only
`voucher_B` gets a Mapping.  The second, source-identical full sync then
re-imports `A` and inserts a brand-new `voucher_A` Mapping row —
contradicting "zero new Mappings on the second run" — although no new
ledger transaction is created. -/
theorem second_full_sync_inserts_new_mapping :
    idemWorld1.db.mappings.map (fun m => m.sevdesk_id) = ["voucher_B"] ∧
    idemWorld2.db.mappings.map (fun m => m.sevdesk_id) = ["voucher_B", "voucher_A"] ∧
    idemWorld2.ledger.length = idemWorld1.ledger.length := by
  decide

/-- C4 counterexample: a document with a pass-through (type-39) line
item *and* a cost centre is automatically valid via the pass-through
branch of `validate_voucher`, although the regular-document rules would
reject it (its cost centre is unmapped) — so it is not "classified under
the regular-document rules" as the claim states. -/
theorem passthrough_with_cost_centre_not_regular :
    hasCostCentre voucherD39 = true ∧
    (validateVoucher [] voucherD39 positionsD39).is_valid = true ∧
    (validateVoucher [] voucherD39 positionsD39).voucher_type = "no_cost_center_required" ∧
    (validateRegularVoucher [] voucherD39 positionsD39).is_valid = false := by
  decide

/-- C4 (amended): for every document having a line item in the
no-cost-center-required set and none in the transfer set, the classifier
returns valid via the pass-through branch regardless of whether the
document carries a cost centre; the regular-document rules are not
applied. -/
theorem passthrough_always_valid (catMaps : List (String × String))
    (v : Voucher) (ps : List VPosition)
    (hno : anyTypeIn ps noCostCenterTypeIds = true)
    (hgeld : anyTypeIn ps geldtransitTypeIds = false) :
    (validateVoucher catMaps v ps).is_valid = true ∧
    (validateVoucher catMaps v ps).voucher_type = "no_cost_center_required" := by
  have hne : ps.isEmpty = false := by
    cases ps with
    | nil => simp [anyTypeIn] at hno
    | cons a l => rfl
  simp [validateVoucher, hne, hgeld, hno]

/-- C4 witness: `passthrough_always_valid` evaluated on the concrete
type-39 voucher with a cost centre. -/
theorem passthrough_always_valid_witness :
    (validateVoucher [] voucherD39 positionsD39).is_valid = true ∧
    (validateVoucher [] voucherD39 positionsD39).voucher_type = "no_cost_center_required" :=
  passthrough_always_valid [] voucherD39 positionsD39 (by decide) (by decide)

/-- C5 counterexample: a cached voucher marked edited (dirty) whose
update timestamp is unchanged is *not* selected by the incremental
sync — the selection consists only of timestamp-newer vouchers and
currently-invalid vouchers; `get_edited_voucher_ids` is never consulted
by `sync_vouchers`. -/
theorem dirty_voucher_not_reselected :
    getEditedVoucherIds editedCache = ["E"] ∧
    incrementalSelection editedCache [voucherE] (fun _ => none) = [] := by
  decide

/-- C6 counterexample: with two candidates of which the first one's
create step raises, `import_transactions` propagates the error and the
second candidate is never attempted (the trace contains only the first
candidate), contradicting "the remaining candidates in the batch are
still attempted". -/
theorem item_failure_aborts_import_batch :
    importRunTrace "acct" (fun c => c.imported_id = "i1") [candFail, candAfter]
        emptyImportState =
      (emptyImportState, [candFail], some "import failed for i1") := by
  decide

/-- C7 counterexample: the reconciliation pass queries the source system
for an `ignored` mapping row and, when the source document is gone,
deletes that row — contradicting "neither queries the source system for
it nor deletes the Mapping row". -/
theorem reconciler_processes_ignored_mapping :
    ignoredMapping.ignored = true ∧
    (reconcileTransactions (fun _ => none) [ignoredMapping] [] false).queried = ["9"] ∧
    (reconcileTransactions (fun _ => none) [ignoredMapping] [] false).mappings = [] := by
  decide

/-- C9: evaluating the code at the failing input — when the whole-phase
position fetch raises after the `SyncRun` row was inserted,
`sync_vouchers` propagates the error and the run row is left in status
`running`; it is never closed with status `failed`. -/
theorem phase_error_leaves_run_running :
    failedPhaseRun.2 = some "boom" ∧
    failedPhaseRun.1.db.history.map (fun r => r.status) = ["running"] := by
  decide

/-- C10: `mark_voucher_ignored` replaces the whole row for the source
id: afterwards the lookup returns a row with `ignored = 1` whose
`actual_id` column holds the ignore reason, and every row of the table
with that source id carries the reason instead of any previously stored
ledger transaction id.  (The operation is a pure function of the mapping
table; the ledger is untouched by construction.) -/
theorem mark_ignored_replaces_row (table : List MappingRow) (sid reason : String) :
    getTransactionMapping (markVoucherIgnored table sid reason) sid =
      some { sevdesk_id := sid, actual_id := reason, ignored := true } ∧
    ∀ r ∈ markVoucherIgnored table sid reason, r.sevdesk_id = sid →
      r.ignored = true ∧ r.actual_id = reason := by
  constructor
  · unfold getTransactionMapping markVoucherIgnored upsertMappingRow
    rw [List.find?_append]
    have h1 : (table.filter (fun x => x.sevdesk_id ≠ sid)).find?
        (fun r => r.sevdesk_id = sid) = none := by
      rw [List.find?_eq_none]
      intro x hx
      have := (List.mem_filter.mp hx).2
      simpa using this
    simp [h1]
  · intro r hr hsid
    unfold markVoucherIgnored upsertMappingRow at hr
    rcases List.mem_append.mp hr with h | h
    · have := (List.mem_filter.mp h).2
      simp [hsid] at this
    · have : r = { sevdesk_id := sid, actual_id := reason, ignored := true } := by
        simpa using h
      subst this
      exact ⟨rfl, rfl⟩

/-- Per-key row count after an `INSERT OR REPLACE` stays at most one. -/
lemma upsert_key_count_le (t : List MappingRow) (row : MappingRow) (sid : String)
    (h : (t.filter (fun r => r.sevdesk_id = sid)).length ≤ 1) :
    ((upsertMappingRow t row).filter (fun r => r.sevdesk_id = sid)).length ≤ 1 := by
  unfold upsertMappingRow
  rw [List.filter_append, List.length_append]
  by_cases hs : row.sevdesk_id = sid
  · have hnil : (t.filter (fun x => x.sevdesk_id ≠ row.sevdesk_id)).filter
        (fun r => r.sevdesk_id = sid) = [] := by
      rw [List.filter_filter]
      refine List.filter_eq_nil_iff.mpr (fun a _ => ?_)
      simp [hs]
    rw [hnil]
    simp [hs]
  · have hone : ([row].filter (fun r => r.sevdesk_id = sid)) = [] := by
      simp [hs]
    rw [hone]
    have hsub : List.Sublist
        ((t.filter (fun x => x.sevdesk_id ≠ row.sevdesk_id)).filter
          (fun r => r.sevdesk_id = sid))
        (t.filter (fun r => r.sevdesk_id = sid)) :=
      (List.filter_sublist t).filter _
    have := hsub.length_le
    simp only [List.length_nil]
    omega

/-- Per-key row count after a delete stays at most one. -/
lemma delete_key_count_le (t : List MappingRow) (sid' sid : String)
    (h : (t.filter (fun r => r.sevdesk_id = sid)).length ≤ 1) :
    ((deleteTransactionMapping t sid').filter (fun r => r.sevdesk_id = sid)).length ≤ 1 := by
  unfold deleteTransactionMapping
  have hsub : List.Sublist
      ((t.filter (fun r => r.sevdesk_id ≠ sid')).filter (fun r => r.sevdesk_id = sid))
      (t.filter (fun r => r.sevdesk_id = sid)) :=
    (List.filter_sublist t).filter _
  exact le_trans hsub.length_le h

/-- Every Cache-Store operation preserves the per-key row bound. -/
lemma applyMapOp_key_count_le (t : List MappingRow) (op : MapOp) (sid : String)
    (h : (t.filter (fun r => r.sevdesk_id = sid)).length ≤ 1) :
    ((applyMapOp t op).filter (fun r => r.sevdesk_id = sid)).length ≤ 1 := by
  cases op with
  | save s a vd amt ts => exact upsert_key_count_le t _ sid h
  | ignore s rsn => exact upsert_key_count_le t _ sid h
  | del s => exact delete_key_count_le t s sid h

/-- The per-key row bound is preserved by any operation sequence. -/
lemma applyMapOps_key_count_le (ops : List MapOp) (t : List MappingRow) (sid : String)
    (h : (t.filter (fun r => r.sevdesk_id = sid)).length ≤ 1) :
    ((applyMapOps ops t).filter (fun r => r.sevdesk_id = sid)).length ≤ 1 := by
  induction ops generalizing t with
  | nil => exact h
  | cons op ops ih => exact ih (applyMapOp t op) (applyMapOp_key_count_le t op sid h)

/-- C2: starting from the empty `transaction_mappings` table, any
sequence of `save_transaction_mapping`, `mark_voucher_ignored` and
`delete_transaction_mapping` operations leaves at most one row per
source id — in particular at most one non-ignored Mapping per source id,
and no source id is ever simultaneously linked to a ledger transaction
(a non-ignored row) and marked ignored (an ignored row). -/
theorem mapping_table_at_most_one_row (ops : List MapOp) (sid : String) :
    ((applyMapOps ops []).filter (fun r => r.sevdesk_id = sid)).length ≤ 1 ∧
    ((applyMapOps ops []).filter
      (fun r => r.sevdesk_id = sid && !r.ignored)).length ≤ 1 ∧
    ¬((∃ r ∈ applyMapOps ops [], r.sevdesk_id = sid ∧ r.ignored = false) ∧
      (∃ r ∈ applyMapOps ops [], r.sevdesk_id = sid ∧ r.ignored = true)) := by
  have h1 : ((applyMapOps ops []).filter (fun r => r.sevdesk_id = sid)).length ≤ 1 :=
    applyMapOps_key_count_le ops [] sid (by simp)
  refine ⟨h1, ?_, ?_⟩
  · have hsub : List.Sublist
        ((applyMapOps ops []).filter (fun r => r.sevdesk_id = sid && !r.ignored))
        ((applyMapOps ops []).filter (fun r => r.sevdesk_id = sid)) := by
      refine List.monotone_filter_right _ (fun a ha => ?_)
      simp only [Bool.and_eq_true] at ha
      exact ha.1
    exact le_trans hsub.length_le h1
  · rintro ⟨⟨r, hr, hrs, hri⟩, ⟨r', hr', hrs', hri'⟩⟩
    have hne : r ≠ r' := by
      intro he
      rw [he] at hri
      rw [hri] at hri'
      exact Bool.false_ne_true hri'
    have hmem : r ∈ (applyMapOps ops []).filter (fun x => x.sevdesk_id = sid) :=
      List.mem_filter.mpr ⟨hr, by simp [hrs]⟩
    have hmem' : r' ∈ (applyMapOps ops []).filter (fun x => x.sevdesk_id = sid) :=
      List.mem_filter.mpr ⟨hr', by simp [hrs']⟩
    cases hfl : (applyMapOps ops []).filter (fun x => x.sevdesk_id = sid) with
    | nil =>
        rw [hfl] at hmem
        exact absurd hmem (List.not_mem_nil r)
    | cons a rest =>
        cases rest with
        | nil =>
            rw [hfl] at hmem hmem'
            have ha : r = a := List.mem_singleton.mp hmem
            have ha' : r' = a := List.mem_singleton.mp hmem'
            exact hne (ha.trans ha'.symm)
        | cons b l =>
            rw [hfl] at h1
            simp at h1

/-- C3: per-candidate trichotomy of the import engine.  (1) A candidate
whose imported id is already in the duplicate set is recorded as skipped
and nothing else changes.  (2) Otherwise, when a similar transaction
(same account, identical amount, date within ±3 days, not deleted)
exists, the first one is updated in place: no transaction is created,
the candidate is recorded as updated, and the external id is attached to
that transaction.  (3) Otherwise a new transaction is created and
recorded as added.  Additionally, the duplicate set a batch starts from
contains exactly the truthy external ids of the batch that live on a
non-deleted transaction of the account. -/
theorem import_step_trichotomy (acct : String) (st : ImportState) (c : ImportCand) :
    (skipCond st c = true →
      importStep acct st c = { st with skipped := st.skipped ++ [c.imported_id] }) ∧
    (skipCond st c = false →
      ∀ t ts, st.ledger.filter (similarMatch acct c) = t :: ts →
        (importStep acct st c).ledger.length = st.ledger.length ∧
        (importStep acct st c).added = st.added ∧
        (importStep acct st c).updated = st.updated ++ [t.id] ∧
        (c.imported_id ≠ "" →
          ∃ t' ∈ (importStep acct st c).ledger,
            t'.id = t.id ∧ t'.financial_id = some c.imported_id)) ∧
    (skipCond st c = false →
      st.ledger.filter (similarMatch acct c) = [] →
        (importStep acct st c).ledger = st.ledger ++ [mkNewTxn acct c st.nextId] ∧
        (importStep acct st c).added = st.added ++ [newTxnId st.nextId] ∧
        (importStep acct st c).updated = st.updated) ∧
    (∀ (batch : List ImportCand) (ledger : List LTxn) (iid : String),
      iid ∈ initialExistingIds acct batch ledger ↔
        (iid ≠ "" ∧ iid ∈ batch.map (fun x => x.imported_id) ∧
          ∃ t ∈ ledger, t.acct = acct ∧ t.tombstone = false ∧
            t.financial_id = some iid)) := by
  refine ⟨?_, ?_, ?_, ?_⟩
  · intro h
    simp [importStep, h]
  · intro h t ts hsim
    have ht : t ∈ st.ledger := by
      refine List.mem_of_mem_filter (p := similarMatch acct c) ?_
      rw [hsim]
      exact List.mem_cons_self t ts
    refine ⟨?_, ?_, ?_, ?_⟩
    · simp [importStep, h, hsim]
    · simp [importStep, h, hsim]
    · simp [importStep, h, hsim]
    · intro hiid
      refine ⟨applyCandUpdate c t, ?_, ?_, ?_⟩
      · simp only [importStep, h, Bool.false_eq_true, if_false, hsim]
        have := List.mem_map_of_mem
          (fun u => if u.id = t.id then applyCandUpdate c u else u) ht
        simpa using this
      · simp [applyCandUpdate]
      · simp [applyCandUpdate, hiid]
  · intro h hsim
    refine ⟨?_, ?_, ?_⟩ <;> simp [importStep, h, hsim]
  · intro batch ledger iid
    simp only [initialExistingIds, List.mem_filterMap]
    constructor
    · rintro ⟨t, ht, hf⟩
      cases hb : (t.acct = acct && !t.tombstone) with
      | false => simp [hb] at hf
      | true =>
          simp only [hb, if_true] at hf
          cases hfi : t.financial_id with
          | none => simp [hfi] at hf
          | some f =>
              rw [hfi] at hf
              simp at hf
              obtain ⟨⟨hne, a, ha, hai⟩, rfl⟩ := hf
              simp only [Bool.and_eq_true, decide_eq_true_eq] at hb
              exact ⟨hne, List.mem_map.mpr ⟨a, ha, hai⟩, t, ht, hb.1,
                by simpa using hb.2, hfi⟩
    · rintro ⟨hne, hmem, t, ht, hacct, htomb, hfin⟩
      refine ⟨t, ht, ?_⟩
      simp [hacct, htomb, hfin, hne, hmem]

/-- C3 witness: `import_step_trichotomy` applied to a concrete state
whose duplicate set already holds the candidate's external id: the
candidate is recorded as skipped. -/
theorem import_step_trichotomy_witness :
    skipCond skipState candFail = true ∧
    importStep "acct" skipState candFail =
      { skipState with skipped := skipState.skipped ++ [candFail.imported_id] } :=
  ⟨by decide, (import_step_trichotomy "acct" skipState candFail).1 (by decide)⟩

/-- The cache's maximum update timestamp does not depend on the edited
flags. -/
lemma getMaxUpdateTimestamp_clearEdited (cache : List CacheRow) :
    getMaxUpdateTimestamp (cache.map clearEditedFlag) = getMaxUpdateTimestamp cache := by
  unfold getMaxUpdateTimestamp
  rw [List.filterMap_map]
  rfl

/-- The invalid-voucher id query does not depend on the edited flags. -/
lemma getInvalidVoucherIds_clearEdited (cache : List CacheRow) :
    getInvalidVoucherIds (cache.map clearEditedFlag) = getInvalidVoucherIds cache := by
  unfold getInvalidVoucherIds
  rw [List.filterMap_map]
  rfl

/-- C5 (amended): the incremental selection of `sync_vouchers` consists
only of the fetched vouchers whose update timestamp exceeds the cache's
maximum plus the re-fetched currently-invalid vouchers; the
edited/dirty flag plays no role — two caches that agree except on their
`edited` flags yield the same selection, so a dirty-marked document with
an unchanged timestamp and valid state is not re-selected. -/
theorem incremental_selection_ignores_edited (cache cache' : List CacheRow)
    (fetched : List Voucher) (getVoucher : String → Option Voucher)
    (h : cache.map clearEditedFlag = cache'.map clearEditedFlag) :
    incrementalSelection cache fetched getVoucher =
      incrementalSelection cache' fetched getVoucher := by
  have h1 : getMaxUpdateTimestamp cache = getMaxUpdateTimestamp cache' := by
    rw [← getMaxUpdateTimestamp_clearEdited cache, h,
      getMaxUpdateTimestamp_clearEdited]
  have h2 : getInvalidVoucherIds cache = getInvalidVoucherIds cache' := by
    rw [← getInvalidVoucherIds_clearEdited cache, h,
      getInvalidVoucherIds_clearEdited]
  unfold incrementalSelection
  rw [h1, h2]

/-- C5 witness: `incremental_selection_ignores_edited` applied to the
concrete edited cache and its edited-flag-cleared twin. -/
theorem incremental_selection_ignores_edited_witness :
    editedCache.map clearEditedFlag = clearedCache.map clearEditedFlag ∧
    incrementalSelection editedCache [voucherE] (fun _ => none) =
      incrementalSelection clearedCache [voucherE] (fun _ => none) :=
  ⟨by decide,
    incremental_selection_ignores_edited editedCache clearedCache [voucherE]
      (fun _ => none) (by decide)⟩

/-- C6 (amended): `import_transactions` has no per-item error isolation.
If a prefix of the batch is processed without error and the next
candidate's create/update step raises (the candidate is not a skip, so
its processing reaches the raising operation), the whole call aborts at
that candidate: the error propagates and none of the remaining
candidates is attempted. -/
theorem import_failure_aborts_rest (acct : String) (failsOn : ImportCand → Bool)
    (xs : List ImportCand) (c : ImportCand) (ys : List ImportCand) (st : ImportState)
    (hpre : (importRunTrace acct failsOn xs st).2.2 = none)
    (hskip : skipCond (importRunTrace acct failsOn xs st).1 c = false)
    (hfail : failsOn c = true) :
    importRunTrace acct failsOn (xs ++ c :: ys) st =
      ((importRunTrace acct failsOn xs st).1,
        (importRunTrace acct failsOn xs st).2.1 ++ [c],
        some ("import failed for " ++ c.imported_id)) := by
  induction xs generalizing st with
  | nil =>
      simp only [importRunTrace, List.nil_append] at hskip ⊢
      simp [importRunTrace, hskip, hfail]
  | cons x xs ih =>
      by_cases hsx : skipCond st x = true
      · simp only [importRunTrace, hsx, if_true, List.cons_append,
          List.append_eq] at hpre hskip ⊢
        rw [ih (importStep acct st x) hpre hskip]
      · by_cases hfx : failsOn x = true
        · simp [importRunTrace, hsx, hfx] at hpre
        · simp only [importRunTrace, hsx, if_false, hfx, List.cons_append,
            List.append_eq, Bool.false_eq_true] at hpre hskip ⊢
          rw [ih (importStep acct st x) hpre hskip]

/-- C6 witness for the amended claim: `import_failure_aborts_rest`
applied to the empty prefix, the concrete failing candidate and one
trailing candidate: the trailing candidate is never attempted. -/
theorem import_failure_aborts_rest_witness :
    importRunTrace "acct" (fun c => c.imported_id = "i1") ([] ++ candFail :: [candAfter])
        emptyImportState =
      ((importRunTrace "acct" (fun c => c.imported_id = "i1") [] emptyImportState).1,
        (importRunTrace "acct" (fun c => c.imported_id = "i1") [] emptyImportState).2.1
          ++ [candFail],
        some ("import failed for " ++ candFail.imported_id)) :=
  import_failure_aborts_rest "acct" (fun c => c.imported_id = "i1") [] candFail
    [candAfter] emptyImportState (by decide) (by decide) (by decide)

/-- The removal fold only ever shrinks the mapping table. -/
lemma reconcileFold_mappings_subset (l : List MappingRow)
    (s : List MappingRow × List LTxn × Nat) (r : MappingRow)
    (hr : r ∈ (l.foldl reconcileRemoveStep s).1) : r ∈ s.1 := by
  induction l generalizing s with
  | nil => exact hr
  | cons x l ih =>
      have h1 : r ∈ (reconcileRemoveStep s x).1 := ih (reconcileRemoveStep s x) hr
      exact List.mem_of_mem_filter h1

/-- After the removal fold has processed a mapping, no row with its
source id survives. -/
lemma reconcileFold_removes (l : List MappingRow)
    (s : List MappingRow × List LTxn × Nat) (m : MappingRow) :
    m ∈ l → ∀ r ∈ (l.foldl reconcileRemoveStep s).1, r.sevdesk_id ≠ m.sevdesk_id := by
  induction l generalizing s with
  | nil => intro hm; exact absurd hm (List.not_mem_nil m)
  | cons x l ih =>
      intro hm r hr
      rcases List.mem_cons.mp hm with hmx | hml
      · subst hmx
        have h1 : r ∈ (reconcileRemoveStep s m).1 :=
          reconcileFold_mappings_subset l (reconcileRemoveStep s m) r hr
        have h2 := (List.mem_filter.mp h1).2
        simpa using h2
      · exact ih (reconcileRemoveStep s x) hml r hr

/-- After `delete_transaction`, every transaction with the deleted id is
tombstoned (also when nothing was live: then they already were). -/
lemma deleteTransaction_tombstones (ledger : List LTxn) (tid : String) :
    ∀ t ∈ (deleteTransaction ledger tid).2, t.id = tid → t.tombstone = true := by
  intro t ht hid
  unfold deleteTransaction at ht
  by_cases hany : ledger.any (fun u => u.id = tid && !u.tombstone) = true
  · simp only [hany, if_true] at ht
    obtain ⟨u, hu, rfl⟩ := List.mem_map.mp ht
    by_cases huid : u.id = tid
    · simp [huid]
    · rw [if_neg huid] at hid ⊢
      exact absurd hid huid
  · simp only [hany, if_false] at ht
    have hf : ledger.any (fun u => u.id = tid && !u.tombstone) = false :=
      Bool.eq_false_iff.mpr hany
    have h3 := List.any_eq_false.mp hf t ht
    simp [hid] at h3
    exact h3

/-- The operation `delete_transaction` never clears a tombstone: transactions of a
given id that were all tombstoned stay tombstoned. -/
lemma deleteTransaction_preserves_tombstones (ledger : List LTxn) (tid tid' : String)
    (h : ∀ t ∈ ledger, t.id = tid' → t.tombstone = true) :
    ∀ t ∈ (deleteTransaction ledger tid).2, t.id = tid' → t.tombstone = true := by
  intro t ht hid
  unfold deleteTransaction at ht
  by_cases hany : ledger.any (fun u => u.id = tid && !u.tombstone) = true
  · simp only [hany, if_true] at ht
    obtain ⟨u, hu, rfl⟩ := List.mem_map.mp ht
    by_cases huid : u.id = tid
    · simp [huid]
    · rw [if_neg huid] at hid ⊢
      exact h u hu hid
  · simp only [hany, if_false] at ht
    exact h t ht hid

/-- The removal fold preserves "all transactions of this id are
tombstoned". -/
lemma reconcileFold_preserves_tombstones (l : List MappingRow)
    (s : List MappingRow × List LTxn × Nat) (tid : String)
    (h : ∀ t ∈ s.2.1, t.id = tid → t.tombstone = true) :
    ∀ t ∈ (l.foldl reconcileRemoveStep s).2.1, t.id = tid → t.tombstone = true := by
  induction l generalizing s with
  | nil => exact h
  | cons x l ih =>
      refine ih (reconcileRemoveStep s x) ?_
      exact deleteTransaction_preserves_tombstones s.2.1 x.actual_id tid h

/-- After the removal fold has processed a mapping, every ledger
transaction carrying its `actual_id` is tombstoned. -/
lemma reconcileFold_tombstones (l : List MappingRow)
    (s : List MappingRow × List LTxn × Nat) (m : MappingRow) :
    m ∈ l → ∀ t ∈ (l.foldl reconcileRemoveStep s).2.1, t.id = m.actual_id →
      t.tombstone = true := by
  induction l generalizing s with
  | nil => intro hm; exact absurd hm (List.not_mem_nil m)
  | cons x l ih =>
      intro hm
      rcases List.mem_cons.mp hm with hmx | hml
      · subst hmx
        refine reconcileFold_preserves_tombstones l (reconcileRemoveStep s m)
          m.actual_id ?_
        exact deleteTransaction_tombstones s.2.1 m.actual_id
      · exact ih (reconcileRemoveStep s x) hml

/-- A mapping satisfying the removal condition lies in one of the two
buckets (hence in the concatenated removal list). -/
lemma mem_toRemove (getStatus : String → Option String)
    (mappings : List MappingRow) (m : MappingRow) (hm : m ∈ mappings)
    (hrm : removalCond getStatus m = true) :
    m ∈ mappings.filter (unbookedPred getStatus) ++
        mappings.filter (notFoundPred getStatus) := by
  unfold removalCond at hrm
  cases hst : getStatus (stripVoucherKey m.sevdesk_id) with
  | none =>
      refine List.mem_append.mpr (Or.inr (List.mem_filter.mpr ⟨hm, ?_⟩))
      simp [notFoundPred, hst]
  | some s =>
      rw [hst] at hrm
      refine List.mem_append.mpr (Or.inl (List.mem_filter.mpr ⟨hm, ?_⟩))
      simp only [unbookedPred, hst]
      exact hrm

/-- The non-dry-run reconciliation result, written through the removal
fold. -/
lemma reconcileTransactions_eq_fold (getStatus : String → Option String)
    (mappings : List MappingRow) (ledger : List LTxn) :
    reconcileTransactions getStatus mappings ledger false =
      { mappings := ((mappings.filter (unbookedPred getStatus) ++
            mappings.filter (notFoundPred getStatus)).foldl reconcileRemoveStep
            (mappings, ledger, 0)).1,
        ledger := ((mappings.filter (unbookedPred getStatus) ++
            mappings.filter (notFoundPred getStatus)).foldl reconcileRemoveStep
            (mappings, ledger, 0)).2.1,
        queried := mappings.map (fun m => stripVoucherKey m.sevdesk_id),
        deletedCount := ((mappings.filter (unbookedPred getStatus) ++
            mappings.filter (notFoundPred getStatus)).foldl reconcileRemoveStep
            (mappings, ledger, 0)).2.2 } := rfl

/-- C7 (amended): the reconciliation pass takes *all* Mapping rows as
input, ignored ones included: every row's voucher id is queried against
the source system, and an ignored row whose source document is missing
or unbooked is likewise removed from the mapping table by the
non-dry-run pass. -/
theorem reconciler_input_includes_ignored (getStatus : String → Option String)
    (mappings : List MappingRow) (ledger : List LTxn) (dryRun : Bool)
    (m : MappingRow) (hm : m ∈ mappings) :
    stripVoucherKey m.sevdesk_id ∈
      (reconcileTransactions getStatus mappings ledger dryRun).queried ∧
    (m.ignored = true → removalCond getStatus m = true →
      ∀ r ∈ (reconcileTransactions getStatus mappings ledger false).mappings,
        r.sevdesk_id ≠ m.sevdesk_id) := by
  constructor
  · have hq : (reconcileTransactions getStatus mappings ledger dryRun).queried =
        mappings.map (fun x => stripVoucherKey x.sevdesk_id) := by
      cases dryRun <;> rfl
    rw [hq]
    exact List.mem_map_of_mem _ hm
  · intro _ hrm r hr
    rw [reconcileTransactions_eq_fold] at hr
    exact reconcileFold_removes _ _ m (mem_toRemove getStatus mappings m hm hrm) r hr

/-- C7 witness: `reconciler_input_includes_ignored` applied to the
concrete ignored mapping whose source voucher is gone. -/
theorem reconciler_input_includes_ignored_witness :
    stripVoucherKey ignoredMapping.sevdesk_id ∈
      (reconcileTransactions (fun _ => none) [ignoredMapping] [] false).queried ∧
    (∀ r ∈ (reconcileTransactions (fun _ => none) [ignoredMapping] [] false).mappings,
      r.sevdesk_id ≠ ignoredMapping.sevdesk_id) := by
  have h := reconciler_input_includes_ignored (fun _ => none) [ignoredMapping] []
    false ignoredMapping (by simp)
  exact ⟨h.1, h.2 (by decide) (by decide)⟩

/-- C8: outside dry-run, for every Mapping whose source document reports
"not found" or a non-booked status, the Reconciler deletes both sides:
afterwards no Mapping row carries that source id, and every ledger
transaction with the mapped id is tombstoned — also when it already was
(an "already gone" ledger transaction is tolerated, not an error). -/
theorem reconciliation_removes_both (getStatus : String → Option String)
    (mappings : List MappingRow) (ledger : List LTxn) (m : MappingRow)
    (hm : m ∈ mappings) (hrm : removalCond getStatus m = true) :
    (∀ r ∈ (reconcileTransactions getStatus mappings ledger false).mappings,
      r.sevdesk_id ≠ m.sevdesk_id) ∧
    (∀ t ∈ (reconcileTransactions getStatus mappings ledger false).ledger,
      t.id = m.actual_id → t.tombstone = true) := by
  have hmem := mem_toRemove getStatus mappings m hm hrm
  constructor
  · intro r hr
    rw [reconcileTransactions_eq_fold] at hr
    exact reconcileFold_removes _ _ m hmem r hr
  · intro t ht
    rw [reconcileTransactions_eq_fold] at ht
    exact reconcileFold_tombstones _ _ m hmem t ht

/-- C8 witness: `reconciliation_removes_both` applied to the concrete
stale mapping whose document is gone: its mapping row disappears and its
live ledger transaction is tombstoned. -/
theorem reconciliation_removes_both_witness :
    (∀ r ∈ (reconcileTransactions (fun _ => none) [staleMapping] [staleTxn]
        false).mappings, r.sevdesk_id ≠ staleMapping.sevdesk_id) ∧
    (∀ t ∈ (reconcileTransactions (fun _ => none) [staleMapping] [staleTxn]
        false).ledger, t.id = staleMapping.actual_id → t.tombstone = true) :=
  reconciliation_removes_both (fun _ => none) [staleMapping] [staleTxn]
    staleMapping (by simp) (by decide)

/-- C2 witness: `mapping_table_at_most_one_row` evaluated on a concrete
operation sequence that saves a mapping and then marks the same source
id ignored. -/
theorem mapping_table_at_most_one_row_witness :
    ((applyMapOps [MapOp.save "voucher_1" "T1" none none none,
        MapOp.ignore "voucher_1" "Geldtransit"] []).filter
      (fun r => r.sevdesk_id = "voucher_1")).length ≤ 1 :=
  (mapping_table_at_most_one_row
    [MapOp.save "voucher_1" "T1" none none none,
      MapOp.ignore "voucher_1" "Geldtransit"] "voucher_1").1

/-- C10 witness: `mark_ignored_replaces_row` evaluated on a concrete
table holding a non-ignored mapping for the id being ignored. -/
theorem mark_ignored_replaces_row_witness :
    getTransactionMapping
        (markVoucherIgnored [staleMapping] "voucher_7" "Geldtransit") "voucher_7" =
      some { sevdesk_id := "voucher_7", actual_id := "Geldtransit", ignored := true } :=
  (mark_ignored_replaces_row [staleMapping] "voucher_7" "Geldtransit").1

end SevdeskBridge
